import Mathlib

set_option maxHeartbeats 1000000

/-!
Shallow embedding of the mock-healthz-metrics repository, two Python
variants:

* `mock-healthz-metrics.py` (top-level definitions below): a background
  loop runs `run_checks` (critical probes, gated internal_api probes,
  external_api probes, each collected through
  `future.result(timeout=CHECK_TIMEOUT)` which catches only
  `TimeoutError`), publishes the round into the global dict
  `last_check_results` by three separate key assignments, and the
  `/healthz` and `/metrics` handlers read that cache.

* `mock_healthz_server.py` (the `Server` namespace): every request to
  `/healthz` or `/metrics` calls `run_checks()` afresh; the round is a
  single list (critical, then internal/external APIs or skip entries,
  then an end-to-end workflow check) and the overall status is computed
  over the whole list.

Probe bodies draw random outcomes; the embedding makes those draws
explicit inputs (`ProbeOutcome`, `ApiDraw`, booleans) and keeps every
name, message and control path of the source.
-/

/-- A `(name, ok, msg)` result tuple of the Python code. -/
structure CheckResult where
  name : String
  ok : Bool
  message : String
deriving DecidableEq

/-- What the orchestrator of `mock-healthz-metrics.py` observes when it
collects one probe future via `future.result(timeout=CHECK_TIMEOUT)`:
the probe returned `(ok, msg)` in time, or the wait timed out
(`concurrent.futures.TimeoutError`), or the probe raised some other
exception (re-raised by `future.result`). -/
inductive ProbeOutcome where
  | completed (ok : Bool) (msg : String)
  | timedOut
  | raised (e : String)
deriving DecidableEq

/-- Whether this outcome is a raised (non-timeout) exception. -/
def ProbeOutcome.raises : ProbeOutcome → Bool
  | .raised _ => true
  | _ => false

/-- The `ok` flag of the result the orchestrator records for this
outcome (a timeout records `ok == False`; a raised exception records
nothing, so this is `false` for gating purposes). -/
def ProbeOutcome.okResult : ProbeOutcome → Bool
  | .completed ok _ => ok
  | _ => false

/-- `INTERNAL_APIS` of `mock-healthz-metrics.py`. -/
def INTERNAL_APIS : List String := ["billing", "usage"]

/-- `EXTERNAL_APIS` of `mock-healthz-metrics.py`. -/
def EXTERNAL_APIS : List String := ["alipay", "sms"]

/-- The per-round probe outcomes of `mock-healthz-metrics.py`: one
outcome per registered probe (two critical, the two `INTERNAL_APIS`,
the two `EXTERNAL_APIS`). -/
structure RoundOutcomes where
  db : ProbeOutcome
  config : ProbeOutcome
  billing : ProbeOutcome
  usage : ProbeOutcome
  alipay : ProbeOutcome
  sms : ProbeOutcome
deriving DecidableEq

/-- One `try: ... future.result(timeout=CHECK_TIMEOUT) except TimeoutError`
collection step of `run_checks` (`mock-healthz-metrics.py` lines
104-108, 117-121, 134-138): a completed probe yields its tuple, a
timeout yields the synthetic `(name, False, f"{name} timed out")`, and
any other exception propagates (only `TimeoutError` is caught). -/
def collect (name : String) : ProbeOutcome → Except String CheckResult
  | .completed ok msg => .ok ⟨name, ok, msg⟩
  | .timedOut => .ok ⟨name, false, name ++ " timed out"⟩
  | .raised e => .error e

/-- `run_checks` of `mock-healthz-metrics.py` (lines 88-140): collect
the two critical probes, gate the internal_api probes on
`all(ok for _, ok, _ in critical_results)` (skipped entries get
message "Skipped due to upstream failure"), then collect the
external_api probes; returns `(critical_results, external_results)`.
An uncaught probe exception aborts the whole function (`Except.error`). -/
def run_checks (o : RoundOutcomes) : Except String (List CheckResult × List CheckResult) := do
  let dbRes ← collect "db_connection" o.db
  let cfgRes ← collect "config_service" o.config
  let crit0 := [dbRes, cfgRes]
  let critical ←
    if crit0.all (fun r => r.ok) then do
      let b ← collect "internal_api/billing" o.billing
      let u ← collect "internal_api/usage" o.usage
      pure (crit0 ++ [b, u])
    else
      pure (crit0 ++ INTERNAL_APIS.map (fun n =>
        (⟨"internal_api/" ++ n, false, "Skipped due to upstream failure"⟩ : CheckResult)))
  let a ← collect "external_api/alipay" o.alipay
  let s ← collect "external_api/sms" o.sms
  return (critical, [a, s])

/-- The gate of `run_checks`: both critical probes completed with
`ok == True`. -/
def critOk (o : RoundOutcomes) : Bool :=
  o.db.okResult && o.config.okResult

/-- Total companion of `collect` for outcomes that do not raise. -/
def collectR (name : String) : ProbeOutcome → CheckResult
  | .completed ok msg => ⟨name, ok, msg⟩
  | .timedOut => ⟨name, false, name ++ " timed out"⟩
  | .raised _ => ⟨name, false, ""⟩

/-- The round `run_checks` assembles when no collected probe raises a
non-timeout exception. -/
def runChecksT (o : RoundOutcomes) : List CheckResult × List CheckResult :=
  let crit0 := [collectR "db_connection" o.db, collectR "config_service" o.config]
  let critical :=
    if crit0.all (fun r => r.ok) then
      crit0 ++ [collectR "internal_api/billing" o.billing, collectR "internal_api/usage" o.usage]
    else
      crit0 ++ INTERNAL_APIS.map (fun n =>
        (⟨"internal_api/" ++ n, false, "Skipped due to upstream failure"⟩ : CheckResult))
  (critical, [collectR "external_api/alipay" o.alipay, collectR "external_api/sms" o.sms])

/-- No probe whose future `run_checks` actually collects raises a
non-timeout exception (the internal_api probes are only collected when
the gate passes). -/
def relevantNoRaise (o : RoundOutcomes) : Bool :=
  !o.db.raises && !o.config.raises &&
    (if [collectR "db_connection" o.db, collectR "config_service" o.config].all (fun r => r.ok)
     then !o.billing.raises && !o.usage.raises else true) &&
    !o.alipay.raises && !o.sms.raises

/-- The global cache `last_check_results` of `mock-healthz-metrics.py`
(lines 12-16): the three dict keys `"critical"`, `"external"`,
`"timestamp"`. -/
structure StoreState where
  critical : List CheckResult
  external : List CheckResult
  timestamp : Nat
deriving DecidableEq

/-- The initializer of `last_check_results`: empty result lists and a
zero timestamp. -/
def last_check_results_init : StoreState := ⟨[], [], 0⟩

/-- The read path of the handlers (`mock-healthz-metrics.py` lines
169-171, 231-232): the values of the three cache keys. -/
def readSnapshot (st : StoreState) : List CheckResult × List CheckResult × Nat :=
  (st.critical, st.external, st.timestamp)

/-- `last_check_results["critical"] = critical`
(`mock-healthz-metrics.py` line 151). -/
def publishCritical (c : List CheckResult) (st : StoreState) : StoreState :=
  { st with critical := c }

/-- `last_check_results["external"] = external` (line 152). -/
def publishExternal (e : List CheckResult) (st : StoreState) : StoreState :=
  { st with external := e }

/-- `last_check_results["timestamp"] = time.time()` (line 153). -/
def publishTimestamp (t : Nat) (st : StoreState) : StoreState :=
  { st with timestamp := t }

/-- One full publish of `background_check_loop` (lines 151-153): the
three separate key assignments, in source order. -/
def publish (c e : List CheckResult) (t : Nat) (st : StoreState) : StoreState :=
  publishTimestamp t (publishExternal e (publishCritical c st))

/-- A JSON value, enough for the bodies the handlers build with
`json.dumps`. -/
inductive JsonVal where
  | str (s : String)
  | arr (xs : List JsonVal)
  | obj (fields : List (String × JsonVal))

/-- A response body: plain text or a JSON document. -/
inductive BodyV where
  | text (s : String)
  | json (j : JsonVal)

/-- The text of a `BodyV.text` body. -/
def BodyV.textOf : BodyV → String
  | .text s => s
  | .json _ => ""

/-- bottle's `HTTPResponse`: body, HTTP status code (bottle defaults
the status to 200 when the handler passes none) and content type. -/
structure HTTPResponse where
  body : BodyV
  status : Nat
  contentType : String

/-- Python `f"{s:<n}"`: pad `s` with spaces on the right to width `n`. -/
def padTo (n : Nat) (s : String) : String :=
  s ++ String.mk (List.replicate (n - s.length) ' ')

/-- Stand-in for `time.strftime('%Y-%m-%d %H:%M:%S', time.localtime(ts))`:
the calendar rendering is a C-library boundary call no claim depends
on, so the timestamp is rendered by `toString`. -/
def timeString (ts : Nat) : String := toString ts

/-- One check object of the JSON bodies:
`{"name": ..., "status": "ok"|"error", "message": ...}`. -/
def checkJson (r : CheckResult) : JsonVal :=
  .obj [("name", .str r.name),
        ("status", .str (if r.ok then "ok" else "error")),
        ("message", .str r.message)]

/-- One row of the `/healthz` text table of `mock-healthz-metrics.py`
(lines 210-218): `f"{name:<24}{status_text:<8}{msg}"`. -/
def healthzRow (r : CheckResult) : String :=
  padTo 24 r.name ++ padTo 8 (if r.ok then "✔" else "✖") ++ r.message

/-- The `/healthz` handler of `mock-healthz-metrics.py` (lines
159-220): reads the cached results, derives `failed` from the critical
list only, sets the status code to 500 when failed else 200, and
renders either the JSON body (when `format=json`) or the text table. -/
def healthz (st : StoreState) (fmt : Option String) : HTTPResponse :=
  let snapshotStr := timeString st.timestamp
  let failed := st.critical.any (fun r => !r.ok)
  let code := if failed then 500 else 200
  if fmt = some "json" then
    let body : JsonVal := .obj [
      ("status", .str (if failed then "error" else "ok")),
      ("data", .obj [
        ("message", .str (if failed then "Some critical checks failed" else "All critical checks passed")),
        ("snapshot_time", .str snapshotStr),
        ("checks", .obj [
          ("critical", .arr (st.critical.map checkJson)),
          ("external", .arr (st.external.map checkJson))])])]
    ⟨.json body, code, "application/json"⟩
  else
    let title := "HEALTH CHECK SNAPSHOT [" ++ snapshotStr ++ "]"
    let border := String.mk (List.replicate title.length '-')
    let tableHeader := padTo 24 "CHECK" ++ padTo 8 "STATUS" ++ "MESSAGE"
    let lines := [title, border, tableHeader, "----- CRITICAL -----"]
      ++ st.critical.map healthzRow
      ++ ["----- EXTERNAL -----"]
      ++ st.external.map healthzRow
    ⟨.text (String.intercalate "\n" lines), code, "text/plain"⟩

/-- Whether the snapshot is overall healthy: no critical-bucket entry
(which holds critical and dependent results alike) has `ok == false`
(the negation of `failed` at `mock-healthz-metrics.py` line 175). -/
def overallOk (st : StoreState) : Bool :=
  !(st.critical.any (fun r => !r.ok))

/-- The `# HELP` header line of `/metrics`. -/
def metricsHelp : String := "# HELP healthcheck_status Health check status (1=ok,0=error)"

/-- The `# TYPE` header line of `/metrics`. -/
def metricsType : String := "# TYPE healthcheck_status gauge"

/-- One gauge line of `mock-healthz-metrics.py` `/metrics` (lines
242, 246): `healthcheck_status\x7bcheck="<name>",type="<ty>"\x7d <1|0>`. -/
def gaugeLine (name ty : String) (ok : Bool) : String :=
  "healthcheck_status\x7bcheck=\"" ++ name ++ "\",type=\"" ++ ty ++ "\"\x7d "
    ++ (if ok then "1" else "0")

/-- The `/metrics` handler of `mock-healthz-metrics.py` (lines
222-248): the two header lines, one gauge line per cached critical
result (label `type="critical"`), one per cached external result
(label `type="external"`); bottle's default 200 status. -/
def metrics (st : StoreState) : HTTPResponse :=
  let lines := [metricsHelp, metricsType]
    ++ st.critical.map (fun r => gaugeLine r.name "critical" r.ok)
    ++ st.external.map (fun r => gaugeLine r.name "external" r.ok)
  ⟨.text (String.intercalate "\n" lines), 200, "text/plain"⟩

/-- Rendering of the spec's words for the `/metrics` body: two header
comment lines (`# HELP`, `# TYPE`) followed by one gauge line
`healthcheck_status\x7bcheck="<name>",type="critical"|"external"\x7d <1|0>`
per CheckResult of the served round. -/
def specMetricsLines (st : StoreState) : List String :=
  [metricsHelp, metricsType]
    ++ st.critical.map (fun r => gaugeLine r.name "critical" r.ok)
    ++ st.external.map (fun r => gaugeLine r.name "external" r.ok)

/-- Number of probe functions `run_checks` of `mock-healthz-metrics.py`
submits to the executor in one round: the two critical probes always;
the two internal_api probes only when no critical collection raised and
the gate passed; the two external_api probes unless a collected future
raised first. -/
def probeCallsOf (o : RoundOutcomes) : Nat :=
  if o.db.raises || o.config.raises then 2
  else if critOk o then (if o.billing.raises || o.usage.raises then 4 else 6)
  else 4

/-- Process state of `mock-healthz-metrics.py`: the cache plus an
instrumentation counter of probe invocations performed so far. -/
structure SysState where
  store : StoreState
  probeCalls : Nat
deriving DecidableEq

/-- The events of the process: one background-loop iteration (with the
round's probe outcomes and the `time.time()` value), or serving one
`/healthz` or `/metrics` request. -/
inductive Event where
  | tick (o : RoundOutcomes) (t : Nat)
  | healthzReq (fmt : Option String)
  | metricsReq

/-- One event step of `mock-healthz-metrics.py`: a background tick runs
`run_checks` and publishes (an uncaught probe exception kills the loop
thread, leaving the cache unchanged); a request renders the cached
snapshot and produces a response. -/
def step (st : SysState) : Event → SysState × Option HTTPResponse
  | .tick o t =>
    match run_checks o with
    | .ok (c, e) => (⟨publish c e t st.store, st.probeCalls + probeCallsOf o⟩, none)
    | .error _ => (⟨st.store, st.probeCalls + probeCallsOf o⟩, none)
  | .healthzReq fmt => (st, some (healthz st.store fmt))
  | .metricsReq => (st, some (metrics st.store))

/-- The latency/timeout/error random draws one `check_apis` iteration
of `mock_healthz_server.py` makes for one API name (lines 19-36). -/
structure ApiDraw where
  latency : Nat
  timeout : Bool
  error : Bool
deriving DecidableEq

/-- `INTERNAL_APIS` of `mock_healthz_server.py`. -/
def Server.INTERNAL_APIS : List String := ["user", "payment"]

/-- `EXTERNAL_APIS` of `mock_healthz_server.py`. -/
def Server.EXTERNAL_APIS : List String := ["wechat_pay", "sms_provider"]

/-- `check_db_connection` of `mock_healthz_server.py` (lines 7-10),
with the random success draw made an explicit input. -/
def Server.check_db_connection (ok : Bool) : CheckResult :=
  ⟨"db_connection", ok, if ok then "Database is connected" else "Database connection failed"⟩

/-- `check_config_service` of `mock_healthz_server.py` (lines 12-15). -/
def Server.check_config_service (ok : Bool) : CheckResult :=
  ⟨"config_service", ok, if ok then "Config service is reachable" else "Config service error"⟩

/-- One iteration of `check_apis` of `mock_healthz_server.py` (lines
19-36) for service `pfx/name` under draw `d`. -/
def Server.check_api (pfx name : String) (d : ApiDraw) : CheckResult :=
  let svc := pfx ++ "/" ++ name
  if d.timeout then ⟨svc, false, svc ++ " timed out after " ++ toString d.latency ++ "ms"⟩
  else if d.error then ⟨svc, false, svc ++ " returned error"⟩
  else ⟨svc, true, svc ++ " OK (" ++ toString d.latency ++ "ms)"⟩

/-- `check_apis(api_list, prefix)` of `mock_healthz_server.py`, with
the per-name draws supplied alongside the names. -/
def Server.check_apis (apis : List (String × ApiDraw)) (pfx : String) : List CheckResult :=
  apis.map (fun p => Server.check_api pfx p.1 p.2)

/-- `check_endtoend_workflow(prior_results)` of `mock_healthz_server.py`
(lines 39-44): skipped (without drawing) when any prior result failed,
else the explicit 95%-success draw decides. -/
def Server.check_endtoend_workflow (prior : List CheckResult) (drawOk : Bool) : CheckResult :=
  if prior.any (fun r => !r.ok) then
    ⟨"endtoend_workflow", false, "Skipped due to upstream failure"⟩
  else
    ⟨"endtoend_workflow", drawOk,
      if drawOk then "Workflow executed successfully" else "Workflow execution failed"⟩

/-- The random draws of one `mock_healthz_server.py` round, one per
probe. -/
structure Server.Outcomes where
  dbOk : Bool
  configOk : Bool
  user : ApiDraw
  payment : ApiDraw
  wechatPay : ApiDraw
  smsProvider : ApiDraw
  workflowOk : Bool
deriving DecidableEq

/-- `run_checks` of `mock_healthz_server.py` (lines 46-62): the two
critical checks; if both passed, the internal and external API checks,
else one "Skipped due to upstream failure" entry per API; finally the
end-to-end workflow check over all prior results. The second component
counts how many probe functions were invoked. -/
def Server.run_checks (o : Server.Outcomes) : List CheckResult × Nat :=
  let res0 := [Server.check_db_connection o.dbOk, Server.check_config_service o.configOk]
  let gated :=
    if res0.all (fun r => r.ok) then
      (res0 ++ Server.check_apis [("user", o.user), ("payment", o.payment)] "internal_api"
            ++ Server.check_apis [("wechat_pay", o.wechatPay), ("sms_provider", o.smsProvider)] "external_api", 4)
    else
      (res0 ++ ([("internal_api", Server.INTERNAL_APIS), ("external_api", Server.EXTERNAL_APIS)].flatMap
        (fun pr => pr.2.map (fun n =>
          (⟨pr.1 ++ "/" ++ n, false, "Skipped due to upstream failure"⟩ : CheckResult)))), 0)
  (gated.1 ++ [Server.check_endtoend_workflow gated.1 o.workflowOk], 2 + gated.2 + 1)

/-- One row of the `/healthz` text table of `mock_healthz_server.py`
(lines 72-76): `f"{name:<30}{status_text:<8}{msg}"`. -/
def Server.healthzRow (r : CheckResult) : String :=
  padTo 30 r.name ++ padTo 8 (if r.ok then "PASS" else "FAIL") ++ r.message

/-- The `/healthz` handler of `mock_healthz_server.py` (lines 64-92):
runs a fresh `run_checks()` on every request, derives `failed` over
the whole result list, and renders text (default) or JSON. The second
component is the number of probe invocations the request performed. -/
def Server.healthz (o : Server.Outcomes) (fmt : String) : HTTPResponse × Nat :=
  let rc := Server.run_checks o
  let results := rc.1
  let failed := results.any (fun r => !r.ok)
  let code := if failed then 500 else 200
  if fmt = "text" then
    let header := padTo 30 "Component" ++ padTo 8 "Status" ++ "Detail"
    (⟨.text (String.intercalate "\n" (header :: results.map Server.healthzRow)), code, "text/plain"⟩, rc.2)
  else
    let body : JsonVal := .obj [
      ("status", .str (if failed then "error" else "ok")),
      ("data", .obj [
        ("message", .str (if failed then "Some checks failed" else "All checks passed")),
        ("checks", .arr (results.map checkJson))])]
    (⟨.json body, code, "application/json"⟩, rc.2)

/-- One gauge line of `mock_healthz_server.py` `/metrics` (line 102):
`healthcheck_status\x7bcheck="<name>"\x7d <1|0>` — no `type` label. -/
def Server.gaugeLine (name : String) (ok : Bool) : String :=
  "healthcheck_status\x7bcheck=\"" ++ name ++ "\"\x7d " ++ (if ok then "1" else "0")

/-- The `/metrics` handler of `mock_healthz_server.py` (lines 94-103):
runs a fresh `run_checks()` per request, emits the two header lines and
one untyped gauge line per result; bottle's default 200 status. The
second component counts probe invocations performed by the request. -/
def Server.metrics (o : Server.Outcomes) : HTTPResponse × Nat :=
  let rc := Server.run_checks o
  let lines := [metricsHelp, metricsType]
    ++ rc.1.map (fun r => Server.gaugeLine r.name r.ok)
  (⟨.text (String.intercalate "\n" lines), 200, "text/plain"⟩, rc.2)

/-- Probe outcomes for a concrete round in which the first critical
probe fails: used to exercise the gate-failed path of `run_checks`. -/
def c2o : RoundOutcomes :=
  ⟨.completed false "Database connection failed", .completed true "Config service is reachable",
   .completed true "unused", .completed true "unused",
   .completed true "external_api/alipay OK (100ms)", .completed true "external_api/sms OK (200ms)"⟩

/-- The round `run_checks` produces on `c2o`. -/
def c2r : List CheckResult × List CheckResult :=
  ([⟨"db_connection", false, "Database connection failed"⟩,
    ⟨"config_service", true, "Config service is reachable"⟩,
    ⟨"internal_api/billing", false, "Skipped due to upstream failure"⟩,
    ⟨"internal_api/usage", false, "Skipped due to upstream failure"⟩],
   [⟨"external_api/alipay", true, "external_api/alipay OK (100ms)"⟩,
    ⟨"external_api/sms", true, "external_api/sms OK (200ms)"⟩]) 

/-- Probe outcomes for a round whose critical probes pass and whose
internal and external API probes all time out. -/
def c3o : RoundOutcomes :=
  ⟨.completed true "Database is connected", .completed true "Config service is reachable",
   .timedOut, .timedOut, .timedOut, .timedOut⟩

/-- The round `run_checks` produces on `c3o`. -/
def c3r : List CheckResult × List CheckResult :=
  ([⟨"db_connection", true, "Database is connected"⟩,
    ⟨"config_service", true, "Config service is reachable"⟩,
    ⟨"internal_api/billing", false, "internal_api/billing timed out"⟩,
    ⟨"internal_api/usage", false, "internal_api/usage timed out"⟩],
   [⟨"external_api/alipay", false, "external_api/alipay timed out"⟩,
    ⟨"external_api/sms", false, "external_api/sms timed out"⟩])

/-- Probe outcomes for a fully healthy round: every probe completes
with `ok == True`. -/
def c4o : RoundOutcomes :=
  ⟨.completed true "Database is connected", .completed true "Config service is reachable",
   .completed true "internal_api/billing OK (100ms)", .completed true "internal_api/usage OK (120ms)",
   .completed true "external_api/alipay OK (80ms)", .completed true "external_api/sms OK (90ms)"⟩

/-- Probe outcomes of an all-healthy round N. -/
def c7oA : RoundOutcomes :=
  ⟨.completed true "Database is connected", .completed true "Config service is reachable",
   .completed true "internal_api/billing OK (100ms)", .completed true "internal_api/usage OK (120ms)",
   .completed true "external_api/alipay OK (80ms)", .completed true "external_api/sms OK (90ms)"⟩

/-- Probe outcomes of a later round N+1 with a failed critical probe
and a timed-out external probe. -/
def c7oB : RoundOutcomes :=
  ⟨.completed false "Database connection failed", .completed true "Config service is reachable",
   .completed true "unused", .completed true "unused",
   .timedOut, .completed true "external_api/sms OK (90ms)"⟩

/-- Critical bucket of the round on `c7oA`. -/
def c7Ac : List CheckResult :=
  [⟨"db_connection", true, "Database is connected"⟩,
   ⟨"config_service", true, "Config service is reachable"⟩,
   ⟨"internal_api/billing", true, "internal_api/billing OK (100ms)"⟩,
   ⟨"internal_api/usage", true, "internal_api/usage OK (120ms)"⟩]

/-- External bucket of the round on `c7oA`. -/
def c7Ae : List CheckResult :=
  [⟨"external_api/alipay", true, "external_api/alipay OK (80ms)"⟩,
   ⟨"external_api/sms", true, "external_api/sms OK (90ms)"⟩]

/-- Critical bucket of the round on `c7oB`. -/
def c7Bc : List CheckResult :=
  [⟨"db_connection", false, "Database connection failed"⟩,
   ⟨"config_service", true, "Config service is reachable"⟩,
   ⟨"internal_api/billing", false, "Skipped due to upstream failure"⟩,
   ⟨"internal_api/usage", false, "Skipped due to upstream failure"⟩]

/-- External bucket of the round on `c7oB`. -/
def c7Be : List CheckResult :=
  [⟨"external_api/alipay", false, "external_api/alipay timed out"⟩,
   ⟨"external_api/sms", true, "external_api/sms OK (90ms)"⟩]

/-- `mock_healthz_server.py` draws for a round where everything
succeeds except the external wechat_pay API, which returns an error. -/
def c1srvFail : Server.Outcomes :=
  ⟨true, true, ⟨100, false, false⟩, ⟨100, false, false⟩, ⟨100, false, true⟩, ⟨100, false, false⟩, true⟩

/-- `mock_healthz_server.py` draws for a round where every probe
succeeds. -/
def srvAllOk : Server.Outcomes :=
  ⟨true, true, ⟨100, false, false⟩, ⟨100, false, false⟩, ⟨100, false, false⟩, ⟨100, false, false⟩, true⟩

lemma run_checks_ok_iff (o : RoundOutcomes) (r : List CheckResult × List CheckResult) :
    run_checks o = Except.ok r ↔ relevantNoRaise o = true ∧ r = runChecksT o := by
  obtain ⟨db, cfg, bil, us, al, sm⟩ := o
  cases db <;> cases cfg <;> cases bil <;> cases us <;> cases al <;> cases sm <;>
    simp [run_checks, runChecksT, relevantNoRaise, collect, collectR,
      ProbeOutcome.raises, ProbeOutcome.okResult, Bind.bind, Except.bind, pure, Except.pure,
      INTERNAL_APIS] <;>
    first
      | exact eq_comm
      | (split_ifs <;> simp_all <;>
          first
            | exact eq_comm
            | (constructor
               · intro hh
                 refine ⟨?_, hh.symm⟩
                 simp only [Bool.eq_false_iff] at *
                 tauto
               · intro hh
                 exact hh.2.symm))

lemma gate_eq_critOk (o : RoundOutcomes) :
    ([collectR "db_connection" o.db, collectR "config_service" o.config].all (fun r => r.ok))
      = critOk o := by
  obtain ⟨db, cfg, bil, us, al, sm⟩ := o
  cases db <;> cases cfg <;> simp [collectR, critOk, ProbeOutcome.okResult]

lemma collectR_name (n : String) (p : ProbeOutcome) : (collectR n p).name = n := by
  cases p <;> rfl

lemma healthz_status (st : StoreState) (fmt : Option String) :
    (healthz st fmt).status = if st.critical.any (fun r => !r.ok) then 500 else 200 := by
  by_cases h : fmt = some "json" <;> simp [healthz, h]

lemma server_healthz_status (o : Server.Outcomes) (fmt : String) :
    (Server.healthz o fmt).1.status
      = if (Server.run_checks o).1.any (fun r => !r.ok) then 500 else 200 := by
  by_cases h : fmt = "text" <;> simp [Server.healthz, h]

lemma server_healthz_calls (o : Server.Outcomes) (fmt : String) :
    (Server.healthz o fmt).2 = (Server.run_checks o).2 := by
  by_cases h : fmt = "text" <;> simp [Server.healthz, h]

lemma server_metrics_calls (o : Server.Outcomes) :
    (Server.metrics o).2 = (Server.run_checks o).2 := rfl

lemma server_run_checks_calls (o : Server.Outcomes) : 3 ≤ (Server.run_checks o).2 := by
  simp only [Server.run_checks]
  split <;> simp

/-- Claim C1 (as stated, refuted by `mock_healthz_server.py`): a round
whose critical and dependent entries all pass still gets overall
status 500 there, because a failing external (independent) probe is
included in the `failed` computation. -/
theorem c1_overall_status_counterexample :
    (Server.healthz c1srvFail "text").1.status = 500 ∧
    ((Server.run_checks c1srvFail).1.take 4).all (fun r => r.ok) = true :=
  ⟨rfl, by decide⟩

/-- Claim C1 (amended): in `mock-healthz-metrics.py` the `/healthz`
status is 500 exactly when some entry of the critical bucket (critical
and dependent results alike) has `ok == false`, and changing the
external results never changes the status; in `mock_healthz_server.py`
the status is 500 exactly when any result of the whole round fails,
external-tier and workflow results included. -/
theorem c1_overall_status_amended :
    (∀ (st : StoreState) (fmt : Option String),
      ((healthz st fmt).status = 500 ↔ (st.critical.any (fun r => !r.ok)) = true) ∧
      (∀ e2 : List CheckResult,
        (healthz { st with external := e2 } fmt).status = (healthz st fmt).status)) ∧
    (∀ (o : Server.Outcomes) (fmt : String),
      ((Server.healthz o fmt).1.status = 500 ↔ ((Server.run_checks o).1.any (fun r => !r.ok)) = true)) := by
  refine ⟨fun st fmt => ⟨?_, fun e2 => ?_⟩, fun o fmt => ?_⟩
  · rw [healthz_status]
    split <;> simp_all
  · rw [healthz_status, healthz_status]
  · rw [server_healthz_status]
    split <;> simp_all

/-- Claim C2 (as stated, refuted): in the round on `c2o` the first
critical probe fails, and the dependent entries carry message
"Skipped due to upstream failure", not the claimed
"skipped: upstream critical failure". -/
theorem c2_dependent_skip_counterexample :
    run_checks c2o = Except.ok c2r ∧
    (c2r.1.getD 2 ⟨"", false, ""⟩).message = "Skipped due to upstream failure" ∧
    "Skipped due to upstream failure" ≠ "skipped: upstream critical failure" :=
  ⟨rfl, rfl, by decide⟩

/-- Claim C2 (amended): when the critical gate fails, both dependent
entries of the round are `ok == false` with message exactly
"Skipped due to upstream failure", and the dependent probes are not
invoked: replacing their outcomes by anything (even raising ones)
leaves the round unchanged. -/
theorem c2_dependent_skip_amended (o : RoundOutcomes) (r : List CheckResult × List CheckResult)
    (h : run_checks o = Except.ok r) (hgate : critOk o = false) :
    r.1.drop 2 = [⟨"internal_api/billing", false, "Skipped due to upstream failure"⟩,
                  ⟨"internal_api/usage", false, "Skipped due to upstream failure"⟩] ∧
    (∀ b u, run_checks { o with billing := b, usage := u } = Except.ok r) := by
  obtain ⟨hnr, hr⟩ := (run_checks_ok_iff o r).mp h
  subst hr
  constructor
  · simp only [runChecksT, gate_eq_critOk, hgate]
    simp [INTERNAL_APIS]
  · intro b u
    rw [run_checks_ok_iff]
    have hc : critOk { o with billing := b, usage := u } = critOk o := rfl
    constructor
    · simp only [relevantNoRaise, gate_eq_critOk, hc, hgate] at hnr ⊢
      simp_all
    · simp only [runChecksT, gate_eq_critOk, hc, hgate]
      simp [INTERNAL_APIS]

/-- Witness for C2: the round on `c2o` has the two skip entries after
the two critical entries, and stays the same when the dependent probe
outcomes are replaced by a raising and a timing-out one. -/
theorem c2_dependent_skip_witness :
    c2r.1.drop 2 = [⟨"internal_api/billing", false, "Skipped due to upstream failure"⟩,
                    ⟨"internal_api/usage", false, "Skipped due to upstream failure"⟩] ∧
    run_checks { c2o with billing := ProbeOutcome.raised "boom", usage := ProbeOutcome.timedOut }
      = Except.ok c2r :=
  ⟨(c2_dependent_skip_amended c2o c2r rfl rfl).1,
   (c2_dependent_skip_amended c2o c2r rfl rfl).2 (ProbeOutcome.raised "boom") ProbeOutcome.timedOut⟩

/-- Claim C3: whenever a collected probe times out, the assembled round
contains the synthetic result `(name, false, "<name> timed out")` for
it — for the critical tier, the dependent tier (which is only collected
when the critical gate passes) and the independent tier alike. -/
theorem c3_timeout_synthetic_result (o : RoundOutcomes) (r : List CheckResult × List CheckResult)
    (h : run_checks o = Except.ok r) :
    (o.db = ProbeOutcome.timedOut →
      (⟨"db_connection", false, "db_connection timed out"⟩ : CheckResult) ∈ r.1) ∧
    (o.config = ProbeOutcome.timedOut →
      (⟨"config_service", false, "config_service timed out"⟩ : CheckResult) ∈ r.1) ∧
    (critOk o = true → o.billing = ProbeOutcome.timedOut →
      (⟨"internal_api/billing", false, "internal_api/billing timed out"⟩ : CheckResult) ∈ r.1) ∧
    (critOk o = true → o.usage = ProbeOutcome.timedOut →
      (⟨"internal_api/usage", false, "internal_api/usage timed out"⟩ : CheckResult) ∈ r.1) ∧
    (o.alipay = ProbeOutcome.timedOut →
      (⟨"external_api/alipay", false, "external_api/alipay timed out"⟩ : CheckResult) ∈ r.2) ∧
    (o.sms = ProbeOutcome.timedOut →
      (⟨"external_api/sms", false, "external_api/sms timed out"⟩ : CheckResult) ∈ r.2) := by
  obtain ⟨hnr, hr⟩ := (run_checks_ok_iff o r).mp h
  subst hr
  refine ⟨fun hdb => ?_, fun hcfg => ?_, fun hg hb => ?_, fun hg hu => ?_, fun ha => ?_, fun hs => ?_⟩
  · simp only [runChecksT]
    split <;> simp [collectR, hdb]
  · simp only [runChecksT]
    split <;> simp [collectR, hcfg]
  · simp only [runChecksT, gate_eq_critOk, hg]
    simp [collectR, hb]
  · simp only [runChecksT, gate_eq_critOk, hg]
    simp [collectR, hu]
  · simp [runChecksT, collectR, ha]
  · simp [runChecksT, collectR, hs]

/-- Witness for C3: in the round on `c3o` (critical probes pass, API
probes all time out) each timed-out probe has its synthetic timeout
result in the round. -/
theorem c3_timeout_synthetic_result_witness :
    (⟨"internal_api/billing", false, "internal_api/billing timed out"⟩ : CheckResult) ∈ c3r.1 ∧
    (⟨"internal_api/usage", false, "internal_api/usage timed out"⟩ : CheckResult) ∈ c3r.1 ∧
    (⟨"external_api/alipay", false, "external_api/alipay timed out"⟩ : CheckResult) ∈ c3r.2 ∧
    (⟨"external_api/sms", false, "external_api/sms timed out"⟩ : CheckResult) ∈ c3r.2 :=
  ⟨(c3_timeout_synthetic_result c3o c3r rfl).2.2.1 rfl rfl,
   (c3_timeout_synthetic_result c3o c3r rfl).2.2.2.1 rfl rfl,
   (c3_timeout_synthetic_result c3o c3r rfl).2.2.2.2.1 rfl,
   (c3_timeout_synthetic_result c3o c3r rfl).2.2.2.2.2 rfl⟩

/-- Claim C4 (as stated, refuted): a non-timeout exception raised by a
probe is not converted into a failed result — it propagates out of
`run_checks`, so the orchestrator returns no round at all. -/
theorem c4_probe_error_counterexample :
    run_checks ⟨ProbeOutcome.raised "boom", .completed true "Config service is reachable",
      .completed true "m", .completed true "m",
      .completed true "m", .completed true "m"⟩ = Except.error "boom" := rfl

/-- Claim C4 (amended): only timeouts are caught and converted; as long
as no collected probe raises a non-timeout exception, `run_checks`
returns a complete round covering every registered probe in registry
order, while a raised exception (here in the first critical probe)
escapes the orchestrator as an error. -/
theorem c4_probe_error_amended (o : RoundOutcomes) :
    (relevantNoRaise o = true →
      ∃ r, run_checks o = Except.ok r ∧
        r.1.map (fun c => c.name) =
          ["db_connection", "config_service", "internal_api/billing", "internal_api/usage"] ∧
        r.2.map (fun c => c.name) = ["external_api/alipay", "external_api/sms"]) ∧
    (∀ e, o.db = ProbeOutcome.raised e → run_checks o = Except.error e) := by
  constructor
  · intro hnr
    refine ⟨runChecksT o, (run_checks_ok_iff o _).mpr ⟨hnr, rfl⟩, ?_, ?_⟩
    · simp only [runChecksT]
      split <;> simp [collectR_name, INTERNAL_APIS]
    · simp [runChecksT, collectR_name]
  · intro e he
    simp [run_checks, he, collect, Bind.bind, Except.bind]

/-- Witness for C4: on the all-healthy outcomes `c4o` the orchestrator
returns a complete round naming every registered probe. -/
theorem c4_probe_error_witness :
    ∃ r, run_checks c4o = Except.ok r ∧
      r.1.map (fun c => c.name) =
        ["db_connection", "config_service", "internal_api/billing", "internal_api/usage"] ∧
      r.2.map (fun c => c.name) = ["external_api/alipay", "external_api/sms"] :=
  (c4_probe_error_amended c4o).1 rfl

/-- Claim C5: in both variants and in both the text and JSON formats,
`/healthz` answers 200 exactly when the served round is overall
healthy and 500 exactly when it is not (in `mock-healthz-metrics.py`
overall health is `overallOk` of the snapshot; in
`mock_healthz_server.py` it is the absence of any failed result in the
fresh round). -/
theorem c5_healthz_status_code (st : StoreState) (fmt : Option String)
    (o : Server.Outcomes) (sfmt : String) :
    ((healthz st fmt).status = 200 ↔ overallOk st = true) ∧
    ((healthz st fmt).status = 500 ↔ overallOk st = false) ∧
    ((Server.healthz o sfmt).1.status = 500 ↔ ((Server.run_checks o).1.any (fun r => !r.ok)) = true) ∧
    ((Server.healthz o sfmt).1.status = 200 ↔ ((Server.run_checks o).1.any (fun r => !r.ok)) = false) := by
  refine ⟨?_, ?_, ?_, ?_⟩ <;>
    simp only [healthz_status, server_healthz_status, overallOk] <;>
    split <;> simp_all

/-- Claim C6 (as stated, refuted by `mock_healthz_server.py`): serving
one `/healthz` or `/metrics` request there performs 7 probe
invocations (a fresh `run_checks()` per request), not 0. -/
theorem c6_read_only_exposition_counterexample :
    (Server.healthz srvAllOk "text").2 = 7 ∧ (Server.healthz srvAllOk "text").2 ≠ 0 ∧
    (Server.metrics srvAllOk).2 = 7 ∧ (Server.metrics srvAllOk).2 ≠ 0 :=
  ⟨rfl, by decide, rfl, by decide⟩

/-- Claim C6 (amended): in `mock-healthz-metrics.py` serving a
`/healthz` or `/metrics` request leaves the whole process state (cache
and probe-invocation count) unchanged — only background ticks run
probes and publish; in `mock_healthz_server.py` every request invokes
`run_checks`, performing at least 3 probe invocations. -/
theorem c6_read_only_exposition_amended :
    (∀ (st : SysState) (fmt : Option String),
      (step st (Event.healthzReq fmt)).1 = st ∧ (step st Event.metricsReq).1 = st) ∧
    (∀ (o : Server.Outcomes) (fmt : String),
      3 ≤ (Server.healthz o fmt).2 ∧ 3 ≤ (Server.metrics o).2) := by
  refine ⟨fun st fmt => ⟨rfl, rfl⟩, fun o fmt => ⟨?_, ?_⟩⟩
  · rw [server_healthz_calls]
    exact server_run_checks_calls o
  · rw [server_metrics_calls]
    exact server_run_checks_calls o

/-- Claim C7 (as stated, refuted): `run_checks` produces round N on
`c7oA` and round N+1 on `c7oB`; a read that lands between the first
and second assignment of the N+1 publish returns round N+1's critical
results paired with round N's external results and timestamp — a
snapshot mixing two different rounds. -/
theorem c7_snapshot_read_counterexample :
    run_checks c7oA = Except.ok (c7Ac, c7Ae) ∧
    run_checks c7oB = Except.ok (c7Bc, c7Be) ∧
    readSnapshot (publishCritical c7Bc (publish c7Ac c7Ae 5 last_check_results_init))
      = (c7Bc, c7Ae, 5) ∧
    c7Bc ≠ c7Ac ∧ c7Be ≠ c7Ae :=
  ⟨rfl, rfl, rfl, by decide, by decide⟩

/-- Claim C7 (amended): a read not interleaved with a publish returns
exactly the last published round, but because the publish is three
separate key assignments, a read after only the critical assignment of
the next round observes the new critical results with the previous
round's external results and timestamp, and a read after the external
assignment still observes the previous timestamp. -/
theorem c7_snapshot_read_amended (st : StoreState) (cN eN : List CheckResult) (tN : Nat)
    (cM eM : List CheckResult) :
    readSnapshot (publish cN eN tN st) = (cN, eN, tN) ∧
    readSnapshot (publishCritical cM (publish cN eN tN st)) = (cM, eN, tN) ∧
    readSnapshot (publishExternal eM (publishCritical cM (publish cN eN tN st))) = (cM, eM, tN) :=
  ⟨rfl, rfl, rfl⟩

set_option maxRecDepth 4000 in
/-- Claim C8 (as stated, refuted by `mock_healthz_server.py`): its
`/metrics` gauge lines carry no type label — the body served for the
all-healthy round `srvAllOk` uses lines of the untyped form, which
differ from both labelled forms the claim requires. -/
theorem c8_metrics_format_counterexample :
    (Server.metrics srvAllOk).1.body.textOf
      = "# HELP healthcheck_status Health check status (1=ok,0=error)\n# TYPE healthcheck_status gauge\nhealthcheck_status\x7bcheck=\"db_connection\"\x7d 1\nhealthcheck_status\x7bcheck=\"config_service\"\x7d 1\nhealthcheck_status\x7bcheck=\"internal_api/user\"\x7d 1\nhealthcheck_status\x7bcheck=\"internal_api/payment\"\x7d 1\nhealthcheck_status\x7bcheck=\"external_api/wechat_pay\"\x7d 1\nhealthcheck_status\x7bcheck=\"external_api/sms_provider\"\x7d 1\nhealthcheck_status\x7bcheck=\"endtoend_workflow\"\x7d 1" ∧
    Server.gaugeLine "db_connection" true = "healthcheck_status\x7bcheck=\"db_connection\"\x7d 1" ∧
    Server.gaugeLine "db_connection" true ≠ gaugeLine "db_connection" "critical" true ∧
    Server.gaugeLine "db_connection" true ≠ gaugeLine "db_connection" "external" true :=
  ⟨by decide, by decide, by decide, by decide⟩

/-- Claim C8 (amended): in `mock-healthz-metrics.py` the `/metrics`
body is exactly the newline-join of the two header comment lines
followed by one labelled gauge line per result of the served snapshot
(`type="critical"` for the critical bucket, `type="external"` for the
external bucket, 2 + #critical + #external lines in total, no trailing
wrapping); in `mock_healthz_server.py` the gauge lines omit the type
label. -/
theorem c8_metrics_format_amended :
    (∀ st : StoreState,
      (metrics st).body = BodyV.text (String.intercalate "\n" (specMetricsLines st)) ∧
      (specMetricsLines st).length = 2 + st.critical.length + st.external.length) ∧
    (∀ o : Server.Outcomes,
      (Server.metrics o).1.body = BodyV.text (String.intercalate "\n"
        ([metricsHelp, metricsType] ++ (Server.run_checks o).1.map (fun r => Server.gaugeLine r.name r.ok)))) := by
  refine ⟨fun st => ⟨rfl, ?_⟩, fun o => rfl⟩
  simp [specMetricsLines]
  omega

/-- Claim C9: before any publish, reading the store yields the
well-defined empty snapshot — empty critical and external lists and a
zero timestamp. -/
theorem c9_initial_snapshot :
    readSnapshot last_check_results_init = ([], [], 0) ∧
    last_check_results_init.critical = [] ∧
    last_check_results_init.external = [] ∧
    last_check_results_init.timestamp = 0 :=
  ⟨rfl, rfl, rfl, rfl⟩

/-- Claim C10: `/metrics` answers HTTP 200 for every snapshot state
(and, in the server variant, for every round), failing results
included — health is carried only in the gauge values. -/
theorem c10_metrics_always_200 (st : StoreState) (o : Server.Outcomes) :
    (metrics st).status = 200 ∧ (Server.metrics o).1.status = 200 :=
  ⟨rfl, rfl⟩
